import Mathlib

/-!
# Verification of the custom-element lifecycle runtime (`src/custom-element.js`)

A shallow embedding of the element lifecycle state machine: registration,
upgrade, build, attach, layout resolution, viewport-driven loading indicator
and action-queue dispatch.  JavaScript objects become Lean structures,
in-place mutation becomes explicit state passing, thrown exceptions become an
`Option Err` component of each operation's result, and externally observable
effects (hook invocations, event dispatches, scheduled timers, error reports)
are collected in an explicit event trace.
-/

namespace AmpCustomElement

/-- Layout enumeration, mirroring the `Layout` enum consumed from `./layout`. -/
inductive Layout where
  | NODISPLAY
  | FIXED
  | FIXED_HEIGHT
  | RESPONSIVE
  | FILL
  | CONTAINER
  | FLEX_ITEM
  deriving DecidableEq, Repr

/-- Errors thrown by the runtime: implementation hook exceptions, `throw new
Error(...)` sites, and failed `dev.assert` / `user.assert` calls. -/
inductive Err where
  | hookError (id : Nat)
  | layoutNotSupported (l : Layout)
  | devAssert (msg : String)
  | userAssert (msg : String)
  deriving DecidableEq, Repr

/-- Externally observable effects of a lifecycle operation, in program order. -/
inductive Event where
  | createdCallbackInvoked
  | buildCallbackInvoked
  | firstAttachedCallbackInvoked
  | preconnectScheduled (onLayout : Bool)
  | reportError (e : Err)
  | rethrowAsync (e : Err)
  | scheduleDequeue
  | dispatchCustomEvent (name : String)
  | resourcesUpgraded
  | resourcesAdd
  | executeAction (id : Nat) (deferred : Bool)
  | viewportCallbackInvoked (inViewport : Bool)
  | unlayoutCallbackInvoked
  | vsyncMutateScheduled
  | timerDelayScheduled (ms : Nat)
  | deferMutateScheduled
  deriving DecidableEq, Repr

/-- Behaviour of a `BaseElement` implementation instance bound to an element.
Hook outcomes are recorded as data: `buildErr`/`firstAttachedErr` hold the
exception the corresponding hook throws (`none` = hook succeeds),
`supportedLayouts` decides `isLayoutSupported`, `unlayoutResult` is the
boolean returned by `unlayoutCallback`, and `execErrs` maps an action
invocation id to the exception `executeAction` throws on it. -/
structure Impl where
  isStub : Bool
  buildErr : Option Err
  firstAttachedErr : Option Err
  supportedLayouts : List Layout
  unlayoutResult : Bool
  execErrs : List (Nat × Err)
  createsPlaceholder : Bool
  layout : Layout
  layoutWidth : Int
  inViewport : Bool
  deriving DecidableEq, Repr

/-- `implementation_.isLayoutSupported(layout)`. -/
def Impl.isLayoutSupported (i : Impl) (l : Layout) : Bool :=
  l ∈ i.supportedLayouts

/-- Exception thrown by `implementation_.executeAction` on an invocation,
`none` when the action executes without throwing. -/
def Impl.execErr (i : Impl) (id : Nat) : Option Err :=
  (i.execErrs.find? (fun p => p.1 == id)).map Prod.snd

/-- An implementation class (constructor): the per-class behaviour used to
create a fresh `Impl` instance via `new C(element)`. -/
structure ImplClass where
  isStub : Bool
  buildErr : Option Err
  firstAttachedErr : Option Err
  supportedLayouts : List Layout
  unlayoutResult : Bool
  execErrs : List (Nat × Err)
  createsPlaceholder : Bool
  deriving DecidableEq, Repr

/-- `new C(element)`: instantiates the class with per-instance fields at
their initial values. -/
def ImplClass.new (c : ImplClass) : Impl :=
  { isStub := c.isStub
    buildErr := c.buildErr
    firstAttachedErr := c.firstAttachedErr
    supportedLayouts := c.supportedLayouts
    unlayoutResult := c.unlayoutResult
    execErrs := c.execErrs
    createsPlaceholder := c.createsPlaceholder
    layout := Layout.NODISPLAY
    layoutWidth := -1
    inViewport := false }

/-- The `ElementStub` placeholder class from `./element-stub`: the stub
supports every layout and its hooks do nothing. -/
def elementStubClass : ImplClass :=
  { isStub := true
    buildErr := none
    firstAttachedErr := none
    supportedLayouts := [Layout.NODISPLAY, Layout.FIXED, Layout.FIXED_HEIGHT,
      Layout.RESPONSIVE, Layout.FILL, Layout.CONTAINER, Layout.FLEX_ITEM]
    unlayoutResult := false
    execErrs := []
    createsPlaceholder := false }

/-! ## Modelled layout helpers

The helper module `./layout` (functions `parseLayout`, `parseLength`,
`getLengthUnits`, `isLayoutSizeDefined`, `getLayoutClass`,
`hasNaturalDimensions` / `getNaturalDimensions`) is consumed by
`custom-element.js` but its source is not part of this fragment; the
definitions below are modelled from the spec's description of the Layout
Resolver's inputs. -/

/-- Modelled from the spec: JavaScript truthiness of a string-or-null
attribute value (`null`, `undefined` and the empty string are falsy). -/
def truthy : Option String → Bool
  | none => false
  | some s => s ≠ ""

/-- Modelled from the spec: the layout attribute tokens accepted by
`parseLayout`; an unknown token yields `none` (JS `undefined`). -/
def parseLayout (s : String) : Option Layout :=
  if s = "nodisplay" then some Layout.NODISPLAY
  else if s = "fixed" then some Layout.FIXED
  else if s = "fixed-height" then some Layout.FIXED_HEIGHT
  else if s = "responsive" then some Layout.RESPONSIVE
  else if s = "fill" then some Layout.FILL
  else if s = "container" then some Layout.CONTAINER
  else if s = "flex-item" then some Layout.FLEX_ITEM
  else none

/-- Modelled from the spec: CSS length units recognised by `parseLength`. -/
def lengthUnitList : List String := ["px", "em", "rem", "vh", "vw", "vmin", "vmax"]

/-- A non-empty run of decimal digits. -/
def digitChars : List Char → Bool
  | [] => false
  | [c] => c.isDigit
  | c :: cs => c.isDigit && digitChars cs

/-- Splits a character list at its first `'.'`, if any. -/
def splitAtDot : List Char → Option (List Char × List Char)
  | [] => none
  | c :: cs =>
    if c = '.' then some ([], cs)
    else
      match splitAtDot cs with
      | some ab => some (c :: ab.1, ab.2)
      | none => none

/-- A digit string, optionally with a fractional part (`"300"`, `"12.5"`). -/
def isNumeralChars (l : List Char) : Bool :=
  match splitAtDot l with
  | none => digitChars l
  | some ab => digitChars ab.1 && digitChars ab.2

/-- Whether `l` ends with the suffix `u`. -/
def endsWithChars (l u : List Char) : Bool :=
  l.drop (l.length - u.length) = u

/-- Splits a length string into its numeral and its (possibly empty) unit
suffix; `none` when the string is not a valid length. -/
def splitLength (s : String) : Option (String × String) :=
  let l := s.data
  match lengthUnitList.find? (fun u => endsWithChars l u.data &&
      isNumeralChars (l.take (l.length - u.data.length))) with
  | some u => some (⟨l.take (l.length - u.data.length)⟩, u)
  | none => if isNumeralChars l then some (s, "") else none

/-- Modelled from the spec: `parseLength` returns the length normalised to
carry a unit (a bare numeral gets `"px"` appended), or `none` (JS
`undefined`) for an invalid length. -/
def parseLength (s : String) : Option String :=
  match splitLength s with
  | none => none
  | some (_, u) => if u = "" then some (s ++ "px") else some s

/-- Modelled from the spec: `getLengthUnits` extracts the unit of a length
string (a bare numeral counts as `"px"`). -/
def getLengthUnits (s : String) : Option String :=
  (splitLength s).map (fun p => if p.2 = "" then "px" else p.2)

/-- Modelled from the spec: size-defining layouts (every layout except
`NODISPLAY` and `CONTAINER` defines the element's size). -/
def isLayoutSizeDefined (l : Layout) : Bool :=
  match l with
  | Layout.NODISPLAY => false
  | Layout.CONTAINER => false
  | _ => true

/-- Modelled from the spec: the CSS class attached for a resolved layout. -/
def getLayoutClass (l : Layout) : String :=
  match l with
  | Layout.NODISPLAY => "-amp-layout-nodisplay"
  | Layout.FIXED => "-amp-layout-fixed"
  | Layout.FIXED_HEIGHT => "-amp-layout-fixed-height"
  | Layout.RESPONSIVE => "-amp-layout-responsive"
  | Layout.FILL => "-amp-layout-fill"
  | Layout.CONTAINER => "-amp-layout-container"
  | Layout.FLEX_ITEM => "-amp-layout-flex-item"

/-! ## The element state -/

/-- The state of one custom element instance: the instance variables set up
by `createdCallback` plus the static DOM inputs (tag name, attributes) and
the externally supplied facts about the tag (`isLoadingAllowed`,
`isInternalElement`, natural dimensions) that `custom-element.js` consumes
from its collaborators. -/
structure Elem where
  tagName : String
  layoutAttr : Option String
  widthAttr : Option String
  heightAttr : Option String
  sizesAttr : Option String
  heightsAttr : Option String
  hasNoloadingAttr : Bool
  hasPlaceholderAttr : Bool
  hasFallbackAttr : Bool
  hasOverflowAttr : Bool
  internalElement : Bool
  tagLoadingAllowed : Bool
  hasNaturalDims : Bool
  naturalWidth : String
  naturalHeight : String
  built : Bool
  everAttached : Bool
  readyState : String
  layout : Layout
  layoutWidth : Int
  layoutCount : Nat
  isInViewport : Bool
  classes : List String
  styleWidth : Option String
  styleHeight : Option String
  styleDisplayNone : Bool
  sizerCreated : Bool
  actionQueue : Option (List Nat)
  impl : Impl
  isInTemplate : Bool
  loadingDisabled : Option Bool
  loadingState : Option Bool
  loadingContainer : Bool
  loadingContainerHidden : Bool
  loadingElementActive : Bool
  hasPlaceholder : Bool
  deriving DecidableEq, Repr

/-- `classList.add`: adds a class if not already present. -/
def classAdd (cs : List String) (c : String) : List String :=
  if c ∈ cs then cs else cs ++ [c]

/-- `classList.remove`: removes every occurrence of a class. -/
def classRemove (cs : List String) (c : String) : List String :=
  cs.filter (fun x => x ≠ c)

/-- `ElementProto.isUpgraded`: the implementation is not an `ElementStub`. -/
def Elem.isUpgraded (e : Elem) : Bool :=
  !e.impl.isStub

/-- `isInternalOrServiceNode`: internal AMP nodes and placeholder / fallback /
overflow children. -/
def isInternalOrServiceNode (e : Elem) : Bool :=
  if e.internalElement then true
  else if e.tagName ≠ "" &&
      (e.hasPlaceholderAttr || e.hasFallbackAttr || e.hasOverflowAttr) then true
  else false

/-! ## Layout resolution (`applyLayout_`) -/

/-- Minimum element width needed to trigger the loading animation
(`MIN_WIDTH_FOR_LOADING_`). -/
def MIN_WIDTH_FOR_LOADING : Int := 100

/-- Threshold under which top elements get their loading indicator
pre-initialized (`PREPARE_LOADING_THRESHOLD_`). -/
def PREPARE_LOADING_THRESHOLD : Int := 1000

/-- `applyLayout_(element)`: resolves the effective layout from the
`layout` / `width` / `height` / `sizes` / `heights` attributes, validates the
attribute combination (a failed `user.assert` throws), and applies the
resulting CSS classes / styles / sizer to the element.  Returns the resolved
layout together with the updated element. -/
def applyLayout (e : Elem) : Except Err (Layout × Elem) := do
  -- Input layout attributes.
  let inputLayout : Option Layout ←
    if truthy e.layoutAttr then
      match parseLayout (e.layoutAttr.getD "") with
      | none => Except.error (Err.userAssert "Unknown layout")
      | some l => Except.ok (some l)
    else Except.ok none
  let inputWidth : Option String ←
    if truthy e.widthAttr && e.widthAttr ≠ some "auto" then
      match parseLength (e.widthAttr.getD "") with
      | none => Except.error (Err.userAssert "Invalid width value")
      | some w => Except.ok (some w)
    else Except.ok e.widthAttr
  let inputHeight : Option String ←
    if truthy e.heightAttr then
      match parseLength (e.heightAttr.getD "") with
      | none => Except.error (Err.userAssert "Invalid height value")
      | some h => Except.ok (some h)
    else Except.ok none
  -- Calculate effective width and height.
  let wh : Option String × Option String :=
    if (inputLayout = none ∨ inputLayout = some Layout.FIXED ∨
          inputLayout = some Layout.FIXED_HEIGHT) ∧
        (!truthy inputWidth ∨ !truthy inputHeight) ∧ e.hasNaturalDims then
      ((if truthy inputWidth ∨ inputLayout = some Layout.FIXED_HEIGHT then
          inputWidth
        else some e.naturalWidth),
       (if truthy inputHeight then inputHeight else some e.naturalHeight))
    else (inputWidth, inputHeight)
  let width := wh.1
  let height := wh.2
  -- Calculate effective layout.
  let layout : Layout :=
    match inputLayout with
    | some l => l
    | none =>
      if !truthy width && !truthy height then Layout.CONTAINER
      else if truthy height && (!truthy width || width = some "auto") then
        Layout.FIXED_HEIGHT
      else if truthy height && truthy width &&
          (truthy e.sizesAttr || truthy e.heightsAttr) then
        Layout.RESPONSIVE
      else Layout.FIXED
  -- Verify layout attributes.
  if (layout = Layout.FIXED ∨ layout = Layout.FIXED_HEIGHT ∨
      layout = Layout.RESPONSIVE) ∧ !truthy height then
    throw (Err.userAssert "Expected height to be available")
  if layout = Layout.FIXED_HEIGHT ∧ truthy width ∧ width ≠ some "auto" then
    throw (Err.userAssert
      "Expected width to be either absent or equal auto for fixed-height layout")
  if (layout = Layout.FIXED ∨ layout = Layout.RESPONSIVE) ∧
      (!truthy width ∨ width = some "auto") then
    throw (Err.userAssert "Expected width to be available and not equal to auto")
  if layout = Layout.RESPONSIVE then
    if getLengthUnits (width.getD "") ≠ getLengthUnits (height.getD "") then
      throw (Err.userAssert "Length units should be the same for width and height")
  else
    if e.heightsAttr ≠ none then
      throw (Err.userAssert "Unexpected heights attribute for none-responsive layout")
  -- Apply UI.
  let e1 := { e with classes := classAdd e.classes (getLayoutClass layout) }
  let e2 :=
    if isLayoutSizeDefined layout then
      { e1 with classes := classAdd e1.classes "-amp-layout-size-defined" }
    else e1
  let e3 :=
    if layout = Layout.NODISPLAY then { e2 with styleDisplayNone := true }
    else if layout = Layout.FIXED then
      { e2 with styleWidth := width, styleHeight := height }
    else if layout = Layout.FIXED_HEIGHT then { e2 with styleHeight := height }
    else if layout = Layout.RESPONSIVE then { e2 with sizerCreated := true }
    else if layout = Layout.FLEX_ITEM then
      { e2 with styleWidth := if truthy width then width else e2.styleWidth,
                styleHeight := if truthy height then height else e2.styleHeight }
    else e2
  return (layout, e3)

/-! ## Lifecycle operations

Each operation returns the updated element, its event trace in program
order, and the exception it propagates to its caller (`none` = normal
return). -/

/-- `ElementProto.createdCallback`: initialises the instance variables of a
freshly created element (static DOM inputs of `e` are kept; every lifecycle
field is (re)set), instantiates the implementation from the constructor
registered for the tag, and invokes its `createdCallback`. -/
def createdCallback (e : Elem) (ctor : ImplClass) : Elem × List Event :=
  ({ e with
      classes := classAdd (classAdd (classAdd e.classes
        "-amp-element") "-amp-notbuilt") "amp-notbuilt"
      built := false
      readyState := "loading"
      everAttached := false
      layout := Layout.NODISPLAY
      layoutWidth := -1
      layoutCount := 0
      isInViewport := false
      sizerCreated := false
      loadingDisabled := none
      loadingState := none
      loadingContainer := false
      loadingContainerHidden := false
      loadingElementActive := false
      impl := ctor.new
      actionQueue := some []
      isInTemplate := false },
   [Event.createdCallbackInvoked])

/-- `ElementProto.updateInViewport_`: forwards the viewport state to the
implementation. -/
def Elem.updateInViewport (e : Elem) (inViewport : Bool) : Elem × List Event :=
  ({ e with impl := { e.impl with inViewport := inViewport } },
   [Event.viewportCallbackInvoked inViewport])

/-- The tail of a successful `ElementProto.build`: flushes the in-viewport
state, schedules a deferred drain of a non-empty action queue (an empty
queue is nulled immediately), and lazily creates a default placeholder. -/
def buildSuccessTail (e1 : Elem) : Elem × List Event :=
  let r2 := if e1.built && e1.isInViewport then e1.updateInViewport true else (e1, [])
  let r3 :=
    match r2.1.actionQueue with
    | some q =>
      if q.length > 0 then (r2.1, [Event.scheduleDequeue])
      else ({ r2.1 with actionQueue := none }, [])
    | none => (r2.1, [])
  let r4 :=
    if !r3.1.hasPlaceholder && r3.1.impl.createsPlaceholder then
      ({ r3.1 with hasPlaceholder := true }, [])
    else (r3.1, ([] : List Event))
  (r4.1, r2.2 ++ r3.2 ++ r4.2)

/-- `ElementProto.build`: no-op when already built; asserts the element is
upgraded; invokes `buildCallback` under try/catch (the exception is reported
and rethrown, leaving the element unbuilt); on success marks the element
built, removes the not-built classes, and runs `buildSuccessTail`. -/
def build (e : Elem) : Elem × List Event × Option Err :=
  if e.isInTemplate then
    (e, [], some (Err.devAssert "Must never be called in template"))
  else if e.built then (e, [], none)
  else if !e.isUpgraded then
    (e, [], some (Err.devAssert "Cannot build unupgraded element"))
  else
    match e.impl.buildErr with
    | some err => (e, [Event.buildCallbackInvoked, Event.reportError err], some err)
    | none =>
      let e1 := { e with
        built := true,
        classes := classRemove (classRemove e.classes "-amp-notbuilt") "amp-notbuilt" }
      let r := buildSuccessTail e1
      (r.1, [Event.buildCallbackInvoked, Event.preconnectScheduled false] ++ r.2, none)

/-- `ElementProto.upgrade`: replaces the implementation wholesale with an
instance of the new class, replays `createdCallback`, fails fatally when the
current layout is unsupported by the new implementation, and — only when the
element was already attached — replays `firstAttachedCallback`, dispatches
"amp:attached" and requests re-resource-tracking. -/
def upgrade (e : Elem) (newImplClass : ImplClass) : Elem × List Event × Option Err :=
  if e.isInTemplate then (e, [], none)
  else
    let e1 := { e with
      impl := newImplClass.new,
      classes := classRemove (classRemove e.classes "amp-unresolved") "-amp-unresolved" }
    let evs1 := [Event.createdCallbackInvoked]
    if e1.layout ≠ Layout.NODISPLAY ∧ ¬e1.impl.isLayoutSupported e1.layout then
      (e1, evs1, some (Err.layoutNotSupported e1.layout))
    else
      let e2 := { e1 with
        impl := { e1.impl with layout := e1.layout, layoutWidth := e1.layoutWidth } }
      if e2.everAttached then
        match e2.impl.firstAttachedErr with
        | some err => (e2, evs1 ++ [Event.firstAttachedCallbackInvoked], some err)
        | none =>
          (e2, evs1 ++ [Event.firstAttachedCallbackInvoked,
            Event.dispatchCustomEvent "amp:attached", Event.resourcesUpgraded], none)
      else (e2, evs1, none)

/-- The opening of `ElementProto.firstAttachedCallback_`: a still-stubbed
element gets the unresolved classes. -/
def markUnresolved (e : Elem) : Elem :=
  if !e.isUpgraded then
    { e with classes := classAdd (classAdd e.classes "amp-unresolved") "-amp-unresolved" }
  else e

/-- `ElementProto.firstAttachedCallback_`: marks a still-stubbed element
unresolved, resolves the layout via `applyLayout_`, validates the
implementation supports it, and invokes the implementation's
`firstAttachedCallback`; any exception in that flow is reported and
rethrown.  On success dispatches "amp:stubbed" (unupgraded) or
"amp:attached" (upgraded). -/
def firstAttachedCallbackPriv (e : Elem) : Elem × List Event × Option Err :=
  let e0 := markUnresolved e
  match applyLayout e0 with
  | Except.error err => (e0, [Event.reportError err], some err)
  | Except.ok le =>
    let e2 := { le.2 with layout := le.1 }
    if le.1 ≠ Layout.NODISPLAY ∧ ¬e2.impl.isLayoutSupported le.1 then
      (e2, [Event.reportError (Err.layoutNotSupported le.1)],
       some (Err.layoutNotSupported le.1))
    else
      let e3 := { e2 with impl := { e2.impl with layout := le.1 } }
      match e3.impl.firstAttachedErr with
      | some err =>
        (e3, [Event.firstAttachedCallbackInvoked, Event.reportError err], some err)
      | none =>
        (e3, [Event.firstAttachedCallbackInvoked,
          Event.dispatchCustomEvent
            (if !e3.isUpgraded then "amp:stubbed" else "amp:attached")], none)

/-- `ElementProto.attachedCallback`: on the first DOM attachment sets
`everAttached` and runs `firstAttachedCallback_` under a try/catch that
reports (but does not rethrow) its exception; always re-registers the
element with the resource tracker. -/
def attachedCallback (e : Elem) : Elem × List Event × Option Err :=
  if e.isInTemplate then (e, [], none)
  else if !e.everAttached then
    match firstAttachedCallbackPriv { e with everAttached := true } with
    | (e2, evs, some er) => (e2, evs ++ [Event.reportError er, Event.resourcesAdd], none)
    | (e2, evs, none) => (e2, evs ++ [Event.resourcesAdd], none)
  else (e, [Event.resourcesAdd], none)

/-! ## Loading indicator -/

/-- The effective value of the memoized `loadingDisabled_` flag: the cached
value when present, else the `noloading` attribute. -/
def loadingDisabledVal (e : Elem) : Bool :=
  e.loadingDisabled.getD e.hasNoloadingAttr

/-- The memoization performed by `isLoadingEnabled_` on its first call
(`loadingDisabled_ = hasAttribute('noloading')`). -/
def memoLoadingDisabled (e : Elem) : Elem :=
  { e with loadingDisabled := some (loadingDisabledVal e) }

/-- `ElementProto.isLoadingEnabled_`: no loading indicator when `noloading`
is set, the tag is not whitelisted, the element is too small or unmeasured,
a layout has already completed, the element is an internal/service node, or
the layout is not size-defining. -/
def isLoadingEnabled (e : Elem) : Bool :=
  !(loadingDisabledVal e || !e.tagLoadingAllowed ||
    e.layoutWidth < MIN_WIDTH_FOR_LOADING ||
    e.layoutCount > 0 ||
    isInternalOrServiceNode e || !isLayoutSizeDefined e.layout)

/-- `ElementProto.prepareLoading_`: creates the loading container (hidden)
and loader element if not yet present. -/
def prepareLoading (e : Elem) : Elem :=
  if !e.loadingContainer then
    { e with loadingContainer := true, loadingContainerHidden := true,
             loadingElementActive := false }
  else e

/-- `ElementProto.toggleLoading_` up to (but not including) the vsync mutate
callback: records the requested state, returns early when hiding with no
container, re-validates `isLoadingEnabled_` when showing (downgrading the
request to hidden), and otherwise schedules the mutate phase. -/
def toggleLoading (e : Elem) (state : Bool) (_cleanup : Bool) :
    Elem × List Event × Option Err :=
  if e.isInTemplate then
    (e, [], some (Err.devAssert "Must never be called in template"))
  else
    let e1 := { e with loadingState := some state }
    if !state && !e1.loadingContainer then (e1, [], none)
    else if state then
      let e2 := memoLoadingDisabled e1
      if !isLoadingEnabled e2 then
        ({ e2 with loadingState := some false }, [], none)
      else (e2, [Event.vsyncMutateScheduled], none)
    else (e1, [Event.vsyncMutateScheduled], none)

/-- The mutate-phase callback scheduled by `toggleLoading_`: re-reads
`loadingState_`, re-validates `isLoadingEnabled_` (state may have changed
while queued), creates the container when showing, toggles the
`amp-hidden` / `amp-active` classes, and on hide-with-cleanup removes the
container via a deferred mutation. -/
def loadingMutateBody (e : Elem) (cleanup : Bool) : Elem × List Event :=
  let st0 := e.loadingState.getD false
  let se1 : Bool × Elem :=
    if st0 then
      let em := memoLoadingDisabled e
      (if !isLoadingEnabled em then false else st0, em)
    else (st0, e)
  let st := se1.1
  let e2 := if st then prepareLoading se1.2 else se1.2
  if !e2.loadingContainer then (e2, [])
  else
    let e3 := { e2 with loadingContainerHidden := !st, loadingElementActive := st }
    if !st && cleanup then
      ({ e3 with loadingContainer := false, loadingContainerHidden := false,
                 loadingElementActive := false }, [Event.deferMutateScheduled])
    else (e3, [])

/-- Whether the loading indicator is visibly shown: a loading container is
present, not hidden, with the loader element active. -/
def showsLoading (e : Elem) : Bool :=
  e.loadingContainer && !e.loadingContainerHidden && e.loadingElementActive

/-- `ElementProto.viewportCallback`: records the viewport state; before any
layout has completed, hides the loading indicator on exit and schedules the
100ms-debounced show on entry; forwards the state to the implementation
when the element is upgraded and built. -/
def viewportCallback (e : Elem) (inViewport : Bool) : Elem × List Event × Option Err :=
  if e.isInTemplate then
    (e, [], some (Err.devAssert "Must never be called in template"))
  else
    let e1 := { e with isInViewport := inViewport }
    let r2 : Elem × List Event :=
      if e1.layoutCount = 0 then
        if !inViewport then
          let r := toggleLoading e1 false false
          (r.1, r.2.1)
        else (e1, [Event.timerDelayScheduled 100])
      else (e1, [])
    if r2.1.isUpgraded && r2.1.built then
      let r3 := r2.1.updateInViewport inViewport
      (r3.1, r2.2 ++ r3.2, none)
    else (r2.1, r2.2, none)

/-- The debounced callback scheduled by `viewportCallback` on viewport
entry: shows the loading indicator only if, at expiry, no layout has
completed and the element is still in the viewport. -/
def viewportDebounceBody (e : Elem) : Elem × List Event × Option Err :=
  if e.layoutCount = 0 && e.isInViewport then toggleLoading e true false
  else (e, [], none)

/-- `ElementProto.updateLayoutBox`: records the measured width, forwards it
to an upgraded implementation, and — when loading is enabled — starts
showing the indicator if already in viewport, or pre-initializes it for
elements near the top of the page. -/
def updateLayoutBox (e : Elem) (boxWidth : Int) (boxTop : Int) : Elem × List Event :=
  let e1 := { e with layoutWidth := boxWidth }
  let e2 :=
    if e1.isUpgraded then
      { e1 with impl := { e1.impl with layoutWidth := boxWidth } }
    else e1
  let e3 := memoLoadingDisabled e2
  if isLoadingEnabled e3 then
    if e3.isInViewport then
      let r := toggleLoading e3 true false
      (r.1, r.2.1)
    else if boxTop < PREPARE_LOADING_THRESHOLD ∧ boxTop ≥ 0 then
      (e3, [Event.vsyncMutateScheduled])
    else (e3, [])
  else (e3, [])

/-! ## Action queue -/

/-- `ElementProto.executionAction_`: invokes the implementation's
`executeAction`, consuming any exception by re-reporting it asynchronously. -/
def executionAction (e : Elem) (id : Nat) (deferred : Bool) : List Event :=
  match e.impl.execErr id with
  | none => [Event.executeAction id deferred]
  | some err => [Event.executeAction id deferred, Event.rethrowAsync err]

/-- `ElementProto.enqueAction`: appends the invocation to the action queue
when the element is not yet built (a null queue fails the `dev.assert`),
else dispatches it immediately. -/
def enqueAction (e : Elem) (id : Nat) : Elem × List Event × Option Err :=
  if e.isInTemplate then
    (e, [], some (Err.devAssert "Must never be called in template"))
  else if !e.built then
    match e.actionQueue with
    | none => (e, [], some (Err.devAssert "actionQueue_ is null"))
    | some q => ({ e with actionQueue := some (q ++ [id]) }, [], none)
  else (e, executionAction e id false, none)

/-- `ElementProto.dequeueActions_`: no-op when the queue is already null;
otherwise nulls the queue first and then dispatches every queued invocation
in FIFO order with the deferred flag. -/
def dequeueActions (e : Elem) : Elem × List Event :=
  match e.actionQueue with
  | none => (e, [])
  | some q =>
    let e1 := { e with actionQueue := none }
    (e1, q.flatMap (fun id => executionAction e1 id true))

/-! ## Unlayout -/

/-- `ElementProto.unlayoutCallback`: no-op (returning false) unless built
and upgraded; otherwise asks the implementation whether re-layout is needed
and, if so, resets `layoutCount` to 0.  Returns (element, returned boolean,
events, propagated exception). -/
def unlayoutCallback (e : Elem) : Elem × Bool × List Event × Option Err :=
  if e.isInTemplate then
    (e, false, [], some (Err.devAssert "Must never be called in template"))
  else if !e.built || !e.isUpgraded then (e, false, [], none)
  else
    let isReLayoutNeeded := e.impl.unlayoutResult
    let e1 := if isReLayoutNeeded then { e with layoutCount := 0 } else e
    (e1, isReLayoutNeeded, [Event.unlayoutCallbackInvoked], none)

/-! ## Element registry (`knownElements` / `upgradeOrRegisterElement`) -/

/-- Lookup in the `knownElements` map (a JS object, modelled as a partial
map from tag names to classes). -/
def lookupClass (known : String → Option ImplClass) (name : String) :
    Option ImplClass :=
  known name

/-- Assignment `knownElements[name] = c`. -/
def insertClass (known : String → Option ImplClass) (name : String)
    (c : ImplClass) : String → Option ImplClass :=
  fun n => if n = name then some c else known n

/-- The registry state: the `knownElements` map together with the
`stubbedElements` list (the elements instantiated while only the stub was
registered, consumed from `./element-stub`). -/
structure Registry where
  known : String → Option ImplClass
  stubbed : List Elem

/-- `tagName.toLowerCase()`. -/
def lowerStr (s : String) : String :=
  ⟨s.data.map Char.toLower⟩

/-- The loop body of `upgradeOrRegisterElement` for one stubbed element:
elements of the matching tag are upgraded, any exception being caught and
reported without propagating. -/
def upgradeStubbed (name : String) (toClass : ImplClass) (el : Elem) :
    Elem × List Event :=
  if lowerStr el.tagName = name then
    match upgrade el toClass with
    | (el2, evs, some err) => (el2, evs ++ [Event.reportError err])
    | (el2, evs, none) => (el2, evs)
  else (el, [])

/-- `upgradeOrRegisterElement`: registers a fresh name outright; for a
known name asserts the existing entry is the `ElementStub` (duplicate
registration of a real implementation throws a user assertion without
replacing the constructor), then replaces the constructor and upgrades
every matching stubbed element with per-element error isolation. -/
def upgradeOrRegisterElement (r : Registry) (name : String)
    (toClass : ImplClass) : Registry × List Event × Option Err :=
  match lookupClass r.known name with
  | none => ({ r with known := insertClass r.known name toClass }, [], none)
  | some existing =>
    if existing ≠ elementStubClass then
      (r, [], some (Err.userAssert "already registered"))
    else
      ({ known := insertClass r.known name toClass,
         stubbed := r.stubbed.map (fun el => (upgradeStubbed name toClass el).1) },
       r.stubbed.flatMap (fun el => (upgradeStubbed name toClass el).2),
       none)

/-! ## Action-queue lifecycle as a transition system

The drain scheduled by `build` through `timer.delay` is modelled by a
`drainPending` flag on the system state: `dequeueActions_` can run only
after `build` has scheduled it. -/

/-- An element together with the pending-drain timer state. -/
structure Sys where
  elem : Elem
  drainPending : Bool
  deriving DecidableEq, Repr

/-- Running `build()` on the system: a drain becomes pending exactly when
`build` scheduled `dequeueActions_` via `timer.delay`. -/
def Sys.applyBuild (s : Sys) : Sys :=
  let r := build s.elem
  { elem := r.1,
    drainPending := s.drainPending || r.2.1.contains Event.scheduleDequeue }

/-- Running `enqueAction(invocation)` on the system. -/
def Sys.applyEnqueue (s : Sys) (id : Nat) : Sys :=
  { s with elem := (enqueAction s.elem id).1 }

/-- Running the scheduled `dequeueActions_` drain. -/
def Sys.applyDrain (s : Sys) : Sys :=
  { elem := (dequeueActions s.elem).1, drainPending := false }

/-- One step of the action-queue lifecycle: a `build()` call, an
`enqueAction` call, or the firing of a previously scheduled drain. -/
inductive Step : Sys → Sys → Prop where
  | build (s : Sys) : Step s s.applyBuild
  | enqueue (s : Sys) (id : Nat) : Step s (s.applyEnqueue id)
  | drain (s : Sys) (h : s.drainPending = true) : Step s s.applyDrain

/-- States reachable from an initial state by lifecycle steps. -/
def SysReachable (init s : Sys) : Prop :=
  Relation.ReflTransGen Step init s

/-- The system state of a freshly created element: `createdCallback` has
run and no drain is pending. -/
def initSys (e : Elem) (ctor : ImplClass) : Sys :=
  { elem := (createdCallback e ctor).1, drainPending := false }

/-- The action-queue invariant: an unbuilt element always has a non-null
queue, and a drain is pending only for a built element. -/
def QueueInv (s : Sys) : Prop :=
  (s.elem.built = false → s.elem.actionQueue ≠ none) ∧
  (s.drainPending = true → s.elem.built = true)

/-! ## Concrete fixtures used to instantiate the theorems -/

/-- A concrete non-stub implementation class whose hooks all succeed and
which supports every layout. -/
def okClass : ImplClass :=
  { isStub := false
    buildErr := none
    firstAttachedErr := none
    supportedLayouts := [Layout.NODISPLAY, Layout.FIXED, Layout.FIXED_HEIGHT,
      Layout.RESPONSIVE, Layout.FILL, Layout.CONTAINER, Layout.FLEX_ITEM]
    unlayoutResult := true
    execErrs := []
    createsPlaceholder := false }

/-- A concrete element in its post-`createdCallback` state, hosting
`okClass`'s implementation. -/
def baseElem : Elem :=
  { tagName := "amp-img"
    layoutAttr := none
    widthAttr := none
    heightAttr := none
    sizesAttr := none
    heightsAttr := none
    hasNoloadingAttr := false
    hasPlaceholderAttr := false
    hasFallbackAttr := false
    hasOverflowAttr := false
    internalElement := false
    tagLoadingAllowed := true
    hasNaturalDims := false
    naturalWidth := "1px"
    naturalHeight := "1px"
    built := false
    everAttached := false
    readyState := "loading"
    layout := Layout.NODISPLAY
    layoutWidth := -1
    layoutCount := 0
    isInViewport := false
    classes := ["-amp-element", "-amp-notbuilt", "amp-notbuilt"]
    styleWidth := none
    styleHeight := none
    styleDisplayNone := false
    sizerCreated := false
    actionQueue := some []
    impl := okClass.new
    isInTemplate := false
    loadingDisabled := none
    loadingState := none
    loadingContainer := false
    loadingContainerHidden := false
    loadingElementActive := false
    hasPlaceholder := false }

/-! ## C1: build on a built element is a no-op -/

/-- C1: for every element that is already built, `build()` leaves the
element state unchanged and invokes no hook (empty event trace); outside a
template it returns normally, so the second call is a complete no-op and
`buildCallback` is never invoked a second time. -/
theorem build_idempotent (e : Elem) (hb : e.built = true) :
    (build e).1 = e ∧ (build e).2.1 = [] ∧
    (e.isInTemplate = false → build e = (e, [], none)) := by
  unfold build
  cases ht : e.isInTemplate with
  | true => simp [ht, hb]
  | false => simp [ht, hb]

/-- Witness for C1 at a concrete built element. -/
theorem build_idempotent_witness :
    (build { baseElem with built := true }).1 = { baseElem with built := true } ∧
    (build { baseElem with built := true }).2.1 = [] := by
  have h := build_idempotent { baseElem with built := true } rfl
  exact ⟨h.1, h.2.1⟩

/-! ## C3: build is atomic when buildCallback throws -/

/-- C3: for every upgraded, unbuilt element outside a template, when the
implementation's `buildCallback` throws, `build()` reports the error to the
error sink and rethrows the very same error, and the element is left
completely unchanged — still unbuilt, with its not-built classes intact. -/
theorem build_error_atomic (e : Elem) (err : Err)
    (ht : e.isInTemplate = false) (hb : e.built = false)
    (hu : e.isUpgraded = true) (he : e.impl.buildErr = some err) :
    build e = (e, [Event.buildCallbackInvoked, Event.reportError err], some err) ∧
    (build e).1.built = false ∧ (build e).1.classes = e.classes := by
  refine ⟨?_, ?_, ?_⟩ <;> simp [build, ht, hb, hu, he]

/-- A concrete upgraded element whose `buildCallback` throws `hookError 3`. -/
def buildFailElem : Elem :=
  { baseElem with impl := { baseElem.impl with buildErr := some (Err.hookError 3) } }

/-- Witness for C3: a concrete upgraded element whose `buildCallback`
throws `hookError 3`. -/
theorem build_error_atomic_witness :
    build buildFailElem =
      (buildFailElem,
       [Event.buildCallbackInvoked, Event.reportError (Err.hookError 3)],
       some (Err.hookError 3)) :=
  (build_error_atomic buildFailElem (Err.hookError 3) rfl rfl rfl rfl).1

/-! ## C2: upgrade fires the first-attach flow iff already attached -/

/-- C2: upgrading an unattached element never invokes the implementation's
`firstAttachedCallback` and never dispatches "amp:attached"; for an element
outside a template whose current layout the new implementation supports
(or is NODISPLAY) and whose first-attach hook does not throw, `upgrade`
invokes `firstAttachedCallback` and dispatches "amp:attached" exactly once
if and only if the element was already attached (`everAttached`). -/
theorem upgrade_firstAttach_iff_attached (e : Elem) (c : ImplClass) :
    (e.everAttached = false →
      (upgrade e c).2.1.count Event.firstAttachedCallbackInvoked = 0 ∧
      (upgrade e c).2.1.count (Event.dispatchCustomEvent "amp:attached") = 0) ∧
    (e.isInTemplate = false →
      (e.layout = Layout.NODISPLAY ∨ (ImplClass.new c).isLayoutSupported e.layout = true) →
      c.firstAttachedErr = none →
      ((upgrade e c).2.1.count Event.firstAttachedCallbackInvoked =
        (if e.everAttached then 1 else 0)) ∧
      ((upgrade e c).2.1.count (Event.dispatchCustomEvent "amp:attached") =
        (if e.everAttached then 1 else 0))) := by
  constructor
  · intro ha
    cases ht : e.isInTemplate with
    | true => simp [upgrade, ht]
    | false =>
      rw [upgrade]
      simp only [ht, Bool.false_eq_true, if_false]
      split
      · simp [List.count_cons]
      · simp only [ha]
        cases hf : (ImplClass.new c).firstAttachedErr <;> simp
  · intro ht hl hf
    have hcond : ¬(e.layout ≠ Layout.NODISPLAY ∧
        ¬(ImplClass.new c).isLayoutSupported e.layout = true) := by
      rcases hl with hl | hl <;> simp [hl]
    rw [upgrade]
    simp only [ht, Bool.false_eq_true, if_false]
    rw [if_neg (by simpa using hcond)]
    have hf' : (ImplClass.new c).firstAttachedErr = none := by
      simp [ImplClass.new, hf]
    cases ha : e.everAttached <;> simp [ha, hf']

/-- Witness for C2: upgrading a concrete already-attached element fires the
first-attach hook and the "amp:attached" dispatch exactly once. -/
theorem upgrade_firstAttach_iff_attached_witness :
    (upgrade { baseElem with everAttached := true } okClass).2.1.count
      Event.firstAttachedCallbackInvoked = 1 ∧
    (upgrade { baseElem with everAttached := true } okClass).2.1.count
      (Event.dispatchCustomEvent "amp:attached") = 1 := by
  have h := (upgrade_firstAttach_iff_attached { baseElem with everAttached := true }
    okClass).2 rfl (Or.inl rfl) rfl
  simpa using h

/-! ## C4: deferred drain executes queued actions in order, once, isolated -/

/-- A concrete element with actions [1, 2, 3] enqueued, whose
implementation throws `hookError 9` on invocation 2. -/
def actionsElem : Elem :=
  { baseElem with
    actionQueue := some [1, 2, 3],
    impl := { baseElem.impl with execErrs := [(2, Err.hookError 9)] } }

/-- Extracts the invocation id of a deferred `executeAction` dispatch from
an event. -/
def deferredActionId : Event → Option Nat
  | Event.executeAction id true => some id
  | _ => none

/-- The drain trace contains exactly the queued invocation ids, in order,
regardless of which of them throw. -/
theorem execTrace_filterMap (e : Elem) (l : List Nat) :
    (l.flatMap (fun id => executionAction e id true)).filterMap deferredActionId = l := by
  induction l with
  | nil => simp
  | cons a t ih =>
    rw [List.flatMap_cons, List.filterMap_append, ih]
    cases h : e.impl.execErr a <;>
      simp [executionAction, h, deferredActionId]

/-- A throwing invocation contributes an asynchronous re-report to the
drain trace. -/
theorem execTrace_rethrow_mem (e : Elem) (l : List Nat) (id : Nat) (err : Err)
    (hid : id ∈ l) (he : e.impl.execErr id = some err) :
    Event.rethrowAsync err ∈ l.flatMap (fun i => executionAction e i true) := by
  induction l with
  | nil => cases hid
  | cons a t ih =>
    rw [List.flatMap_cons]
    rcases List.mem_cons.mp hid with h | h
    · subst h
      exact List.mem_append_left _ (by simp [executionAction, he])
    · exact List.mem_append_right _ (ih h)

/-- C4: for every element with actions `q` enqueued before build, the
deferred drain nulls the queue, dispatches exactly the invocations of `q`
to the implementation's `executeAction`, in order and once each; an
invocation that throws is asynchronously re-reported and does not prevent
the execution of the subsequent invocations; and a second drain is a
no-op, so the queue can never be drained twice. -/
theorem dequeueActions_fifo (e : Elem) (q : List Nat) (hq : e.actionQueue = some q) :
    ((dequeueActions e).1.actionQueue = none) ∧
    ((dequeueActions e).2.filterMap deferredActionId = q) ∧
    (∀ id ∈ q, ∀ err, e.impl.execErr id = some err →
      Event.rethrowAsync err ∈ (dequeueActions e).2) ∧
    (dequeueActions (dequeueActions e).1 = ((dequeueActions e).1, [])) := by
  have hd : dequeueActions e =
      ({ e with actionQueue := none },
       q.flatMap (fun id => executionAction { e with actionQueue := none } id true)) := by
    simp [dequeueActions, hq]
  refine ⟨by simp [hd], ?_, ?_, ?_⟩
  · rw [hd]
    exact execTrace_filterMap _ q
  · intro id hid err he
    rw [hd]
    exact execTrace_rethrow_mem _ q id err hid (by simpa using he)
  · rw [hd]
    simp [dequeueActions]

/-- Witness for C4: draining the concrete queue [1, 2, 3], where invocation
2 throws, executes 1, 2, 3 in order and re-reports the failure of 2. -/
theorem dequeueActions_fifo_witness :
    ((dequeueActions actionsElem).2.filterMap deferredActionId = [1, 2, 3]) ∧
    (Event.rethrowAsync (Err.hookError 9) ∈ (dequeueActions actionsElem).2) ∧
    (dequeueActions (dequeueActions actionsElem).1 =
      ((dequeueActions actionsElem).1, [])) := by
  have h := dequeueActions_fifo actionsElem [1, 2, 3] rfl
  exact ⟨h.2.1, h.2.2.1 2 (by decide) (Err.hookError 9) rfl, h.2.2.2⟩

/-! ## C5: errors in the first-attach flow are reported but swallowed -/

/-- A concrete element whose layout attributes are valid (height only, so
FIXED_HEIGHT) but whose implementation's `firstAttachedCallback` throws
`hookError 7`. -/
def attachFailElem : Elem :=
  { baseElem with
    heightAttr := some "200",
    impl := { baseElem.impl with firstAttachedErr := some (Err.hookError 7) } }

/-- Counterexample for C5: on a concrete first attachment whose
first-attach hook throws, the inner flow does throw `hookError 7`, yet
`attachedCallback` returns normally (no exception reaches its caller);
the error is only reported. -/
theorem attachedCallback_swallows_counterexample :
    (firstAttachedCallbackPriv { attachFailElem with everAttached := true }).2.2 =
      some (Err.hookError 7) ∧
    (attachedCallback attachFailElem).2.2 = none ∧
    Event.reportError (Err.hookError 7) ∈ (attachedCallback attachFailElem).2.1 := by
  decide

/-- Exceptions escaping `firstAttachedCallback_` are always reported to the
error sink by its own catch before being rethrown. -/
theorem firstAttached_error_reported (e : Elem) (err : Err)
    (h : (firstAttachedCallbackPriv e).2.2 = some err) :
    Event.reportError err ∈ (firstAttachedCallbackPriv e).2.1 := by
  simp only [firstAttachedCallbackPriv] at h ⊢
  split at h
  · simp only [Option.some.injEq] at h
    simp [h]
  · split at h
    · next hcond =>
      rw [if_pos hcond]
      simp at h
      simp [h]
    · next hcond =>
      rw [if_neg hcond]
      split at h
      · next err2 hf =>
        rw [hf]
        simp at h
        simp [h]
      · next hf =>
        simp at h

/-- C5 (amended): for every element on its first attachment (outside a
template), when the first-attach flow (layout resolution/validation or the
implementation's first-attach hook) throws, the exception is reported to
the error sink — by `firstAttachedCallback_`, which rethrows it only as far
as `attachedCallback`, whose catch reports it again — and `attachedCallback`
itself completes normally: the exception is not propagated to the caller of
the attach operation. -/
theorem attach_error_reported_not_rethrown (e : Elem) (err : Err)
    (ht : e.isInTemplate = false) (ha : e.everAttached = false)
    (herr : (firstAttachedCallbackPriv { e with everAttached := true }).2.2 = some err) :
    (attachedCallback e).2.2 = none ∧
    Event.reportError err ∈
      (firstAttachedCallbackPriv { e with everAttached := true }).2.1 ∧
    Event.reportError err ∈ (attachedCallback e).2.1 := by
  have hrep := firstAttached_error_reported { e with everAttached := true } err herr
  have hfa : firstAttachedCallbackPriv { e with everAttached := true } =
      ((firstAttachedCallbackPriv { e with everAttached := true }).1,
       (firstAttachedCallbackPriv { e with everAttached := true }).2.1,
       some err) := by
    rw [← herr]
  have hac : attachedCallback e =
      ((firstAttachedCallbackPriv { e with everAttached := true }).1,
       (firstAttachedCallbackPriv { e with everAttached := true }).2.1 ++
         [Event.reportError err, Event.resourcesAdd], none) := by
    rw [attachedCallback, if_neg (by simp [ht]), if_pos (by simp [ha]), hfa]
  refine ⟨by rw [hac], hrep, ?_⟩

  rw [hac]
  simp

/-- Witness for the amended C5 at the concrete failing element. -/
theorem attach_error_reported_not_rethrown_witness :
    (attachedCallback attachFailElem).2.2 = none ∧
    Event.reportError (Err.hookError 7) ∈ (attachedCallback attachFailElem).2.1 := by
  have h := attach_error_reported_not_rethrown attachFailElem (Err.hookError 7)
    rfl rfl (by decide)
  exact ⟨h.1, h.2.2⟩

/-! ## C6: no loading indicator once a layout has completed -/

/-- Once at least one layout has completed, `isLoadingEnabled_` is false. -/
theorem isLoadingEnabled_false_after_layout (e : Elem) (h : 1 ≤ e.layoutCount) :
    isLoadingEnabled e = false := by
  have h0 : 0 < e.layoutCount := h
  simp [isLoadingEnabled, h0]

/-- With a completed layout, the deferred mutate phase always resolves the
indicator to hidden, whatever show request was pending. -/
theorem loadingMutateBody_hidden (e : Elem) (c : Bool) (h : 1 ≤ e.layoutCount) :
    showsLoading (loadingMutateBody e c).1 = false := by
  have hle : isLoadingEnabled (memoLoadingDisabled e) = false :=
    isLoadingEnabled_false_after_layout _ (by simpa [memoLoadingDisabled] using h)
  simp only [loadingMutateBody]
  cases hls : e.loadingState.getD false <;>
    simp only [hls, hle, if_true, if_false, Bool.false_eq_true, Bool.not_true,
      Bool.not_false] <;>
    split <;>
    first
      | (split <;> simp_all [showsLoading])
      | simp_all [showsLoading]

/-- C6: for every element whose `layoutCount` is at least 1, the loading
indicator can no longer be turned on: `isLoadingEnabled_` is false; a
`toggleLoading(true)` request is immediately downgraded to hidden without
scheduling a mutate; the deferred mutate phase resolves any pending show to
hidden; `viewportCallback` (entry or exit) neither schedules the
100ms-debounced show nor a mutate and leaves the indicator visibility
unchanged; the debounce callback itself is a no-op; and a layout-box
update neither changes the indicator visibility nor emits any effect. -/
theorem no_loading_after_layout (e : Elem) (h : 1 ≤ e.layoutCount) :
    isLoadingEnabled e = false ∧
    (∀ c, e.isInTemplate = false →
      toggleLoading e true c =
        ({ memoLoadingDisabled { e with loadingState := some true } with
            loadingState := some false }, [], none)) ∧
    (∀ c, showsLoading (loadingMutateBody e c).1 = false) ∧
    (∀ b, e.isInTemplate = false →
      showsLoading (viewportCallback e b).1 = showsLoading e ∧
      Event.vsyncMutateScheduled ∉ (viewportCallback e b).2.1 ∧
      Event.timerDelayScheduled 100 ∉ (viewportCallback e b).2.1) ∧
    (viewportDebounceBody e = (e, [], none)) ∧
    (∀ w t, showsLoading (updateLayoutBox e w t).1 = showsLoading e ∧
      (updateLayoutBox e w t).2 = []) := by
  have hne : ¬(1 ≤ e.layoutCount) → False := fun hn => hn h
  refine ⟨isLoadingEnabled_false_after_layout e h, ?_, ?_, ?_, ?_, ?_⟩
  · intro c ht
    have hle : isLoadingEnabled (memoLoadingDisabled { e with loadingState := some true }) =
        false :=
      isLoadingEnabled_false_after_layout _ (by simpa [memoLoadingDisabled] using h)
    rw [toggleLoading, if_neg (by simp [ht])]
    simp [hle]
  · intro c
    exact loadingMutateBody_hidden e c h
  · intro b ht
    have hlc : ¬({ e with isInViewport := b }.layoutCount = 0) := by
      simp only [Elem.mk.injEq]
      omega
    simp only [viewportCallback, ht, Bool.false_eq_true, if_false, hlc,
      if_true, if_false]
    split
    · simp [Elem.updateInViewport, showsLoading]
    · simp [showsLoading]
  · have hlc : ¬(e.layoutCount = 0 && e.isInViewport) = true := by
      simp only [Bool.and_eq_true, decide_eq_true_eq]
      intro hcon
      omega
    simp [viewportDebounceBody, hlc]
  · intro w t
    have hle : ∀ e' : Elem, e'.layoutCount = e.layoutCount →
        isLoadingEnabled e' = false := fun e' he' =>
      isLoadingEnabled_false_after_layout e' (he' ▸ h)
    constructor <;>
      · simp only [updateLayoutBox]
        split <;> simp [hle, memoLoadingDisabled, showsLoading]

/-- Witness for C6 at a concrete element with one completed layout. -/
theorem no_loading_after_layout_witness :
    isLoadingEnabled { baseElem with layoutCount := 1 } = false ∧
    showsLoading (loadingMutateBody { baseElem with layoutCount := 1 } true).1 = false ∧
    viewportDebounceBody { baseElem with layoutCount := 1 } =
      ({ baseElem with layoutCount := 1 }, [], none) := by
  have hyp := no_loading_after_layout { baseElem with layoutCount := 1 } (by decide)
  exact ⟨hyp.1, hyp.2.2.1 true, hyp.2.2.2.2.1⟩

/-! ## C7: unlayoutCallback -/

/-- C7: for every built and upgraded element (outside a template),
`unlayoutCallback()` returns the implementation's answer, resetting
`layoutCount` to 0 exactly when that answer is true and leaving the element
unchanged when it is false; for an element that is not built or not
upgraded it is a no-op returning false — no implementation hook is invoked
and `layoutCount` is unchanged. -/
theorem unlayoutCallback_spec (e : Elem) (ht : e.isInTemplate = false) :
    (e.built = true → e.isUpgraded = true →
      unlayoutCallback e =
        ((if e.impl.unlayoutResult then { e with layoutCount := 0 } else e),
         e.impl.unlayoutResult, [Event.unlayoutCallbackInvoked], none)) ∧
    ((e.built = false ∨ e.isUpgraded = false) →
      unlayoutCallback e = (e, false, [], none)) := by
  constructor
  · intro hb hu
    simp [unlayoutCallback, ht, hb, hu]
  · intro h
    rcases h with h | h <;> simp [unlayoutCallback, ht, h]

/-- Witness for C7: a built, upgraded element whose implementation requests
re-layout; `layoutCount` drops from 2 to 0 and the call returns true. -/
theorem unlayoutCallback_spec_witness :
    unlayoutCallback { baseElem with built := true, layoutCount := 2 } =
      ({ baseElem with built := true, layoutCount := 0 }, true,
       [Event.unlayoutCallbackInvoked], none) := by
  have h := (unlayoutCallback_spec { baseElem with built := true, layoutCount := 2 } rfl).1
    rfl rfl
  simpa using h

end AmpCustomElement

namespace AmpCustomElement

/-! ## C8: layout inference from width/height/sizes attributes -/

/-- The layout `applyLayout_` resolves for an element, `none` when layout
resolution throws a validation error. -/
def resolvedLayout (e : Elem) : Option Layout :=
  (applyLayout e).toOption.map Prod.fst

/-- A concrete element of a tag with natural dimensions carrying only
`height="200"`. -/
def naturalHeightElem : Elem :=
  { baseElem with heightAttr := some "200", hasNaturalDims := true }

/-- Counterexample for C8: for a tag with natural browser dimensions,
giving only `height="200"` resolves to FIXED (the natural width is
substituted), not FIXED_HEIGHT as the claim states for every element. -/
theorem applyLayout_naturalDims_counterexample :
    resolvedLayout naturalHeightElem = some Layout.FIXED ∧
    ¬resolvedLayout naturalHeightElem = some Layout.FIXED_HEIGHT := by
  decide

/-- `Except.ok` bound into a continuation steps to the continuation. -/
theorem exceptOkBind {ε α β : Type} (a : α) (f : α → Except ε β) :
    (Except.ok a >>= f : Except ε β) = f a := rfl

/-- `pure` bound into a continuation steps to the continuation. -/
theorem exceptPureBind {ε α β : Type} (a : α) (f : α → Except ε β) :
    (pure a >>= f : Except ε β) = f a := rfl

/-- `pure` into `Except` is `Except.ok`. -/
theorem exceptPureEq {ε α : Type} (a : α) : (pure a : Except ε α) = Except.ok a := rfl

/-- `toOption` of a successful result. -/
theorem exceptToOptionOk {ε α : Type} (a : α) :
    (Except.ok a : Except ε α).toOption = some a := rfl

/-- C8 (amended): on an element with no explicit layout attribute, layout
resolution infers FIXED from `width="300"` and `height="200"` with no
sizes/heights; FIXED_HEIGHT from only `height="200"` provided the tag has
no natural dimensions; RESPONSIVE from width, height and a sizes
attribute; and CONTAINER from no width, height, sizes or heights when the
tag has no natural dimensions. -/
theorem applyLayout_inference (e : Elem) (hl : e.layoutAttr = none) :
    (e.widthAttr = some "300" → e.heightAttr = some "200" →
      e.sizesAttr = none → e.heightsAttr = none →
      resolvedLayout e = some Layout.FIXED) ∧
    (e.widthAttr = none → e.heightAttr = some "200" →
      e.sizesAttr = none → e.heightsAttr = none → e.hasNaturalDims = false →
      resolvedLayout e = some Layout.FIXED_HEIGHT) ∧
    (e.widthAttr = some "300" → e.heightAttr = some "200" →
      e.sizesAttr = some "(min-width:300px) 100vw" → e.heightsAttr = none →
      resolvedLayout e = some Layout.RESPONSIVE) ∧
    (e.widthAttr = none → e.heightAttr = none →
      e.sizesAttr = none → e.heightsAttr = none → e.hasNaturalDims = false →
      resolvedLayout e = some Layout.CONTAINER) := by
  have hw3 : parseLength "300" = some "300px" := by decide
  have hh2 : parseLength "200" = some "200px" := by decide
  have hu3 : getLengthUnits "300px" = some "px" := by decide
  have hu2 : getLengthUnits "200px" = some "px" := by decide
  refine ⟨?_, ?_, ?_, ?_⟩
  · intro hw hh hs hhs
    simp [resolvedLayout, applyLayout, hl, hw, hh, hs, hhs, truthy,
      exceptOkBind, exceptPureBind, exceptPureEq, exceptToOptionOk,
      hw3, hh2, hu3, hu2, isLayoutSizeDefined, getLayoutClass]
  · intro hw hh hs hhs hnd
    simp [resolvedLayout, applyLayout, hl, hw, hh, hs, hhs, hnd, truthy,
      exceptOkBind, exceptPureBind, exceptPureEq, exceptToOptionOk,
      hw3, hh2, hu3, hu2, isLayoutSizeDefined, getLayoutClass]
  · intro hw hh hs hhs
    simp [resolvedLayout, applyLayout, hl, hw, hh, hs, hhs, truthy,
      exceptOkBind, exceptPureBind, exceptPureEq, exceptToOptionOk,
      hw3, hh2, hu3, hu2, isLayoutSizeDefined, getLayoutClass]
  · intro hw hh hs hhs hnd
    simp [resolvedLayout, applyLayout, hl, hw, hh, hs, hhs, hnd, truthy,
      exceptOkBind, exceptPureBind, exceptPureEq, exceptToOptionOk,
      hw3, hh2, hu3, hu2, isLayoutSizeDefined, getLayoutClass]

/-- Witness for the amended C8: the four attribute configurations at a
concrete element resolve to FIXED, FIXED_HEIGHT, RESPONSIVE and CONTAINER
respectively. -/
theorem applyLayout_inference_witness :
    resolvedLayout { baseElem with widthAttr := some "300", heightAttr := some "200" } =
      some Layout.FIXED ∧
    resolvedLayout { baseElem with heightAttr := some "200" } =
      some Layout.FIXED_HEIGHT ∧
    resolvedLayout { baseElem with
        widthAttr := some "300",
        heightAttr := some "200",
        sizesAttr := some "(min-width:300px) 100vw" } =
      some Layout.RESPONSIVE ∧
    resolvedLayout baseElem = some Layout.CONTAINER := by
  refine ⟨?_, ?_, ?_, ?_⟩
  · exact (applyLayout_inference
      { baseElem with widthAttr := some "300", heightAttr := some "200" } rfl).1
      rfl rfl rfl rfl
  · exact (applyLayout_inference
      { baseElem with heightAttr := some "200" } rfl).2.1 rfl rfl rfl rfl rfl
  · exact (applyLayout_inference
      { baseElem with
        widthAttr := some "300",
        heightAttr := some "200",
        sizesAttr := some "(min-width:300px) 100vw" } rfl).2.2.1 rfl rfl rfl rfl
  · exact (applyLayout_inference baseElem rfl).2.2.2 rfl rfl rfl rfl rfl

end AmpCustomElement
namespace AmpCustomElement

/-! ## C9: the action queue is non-null until (successful) build -/

/-- The success tail of `build` never changes the built flag. -/
theorem buildSuccessTail_built (e1 : Elem) :
    (buildSuccessTail e1).1.built = e1.built := by
  simp only [buildSuccessTail, Elem.updateInViewport]
  repeat' split
  all_goals simp

/-- `build` either leaves the element unchanged without scheduling a drain
(template, already built, unupgraded, or `buildCallback` threw) or results
in a built element. -/
theorem build_cases (e : Elem) :
    ((build e).1 = e ∧ ((build e).2.1.contains Event.scheduleDequeue) = false) ∨
    (build e).1.built = true := by
  rw [build]
  split
  · exact Or.inl ⟨rfl, rfl⟩
  split
  · exact Or.inl ⟨rfl, rfl⟩
  split
  · exact Or.inl ⟨rfl, rfl⟩
  split
  · exact Or.inl ⟨rfl, rfl⟩
  · right
    simp [buildSuccessTail_built]

/-- `enqueAction` preserves the built flag and never nulls the queue. -/
theorem enqueAction_preserves (e : Elem) (id : Nat) :
    (enqueAction e id).1.built = e.built ∧
    ((enqueAction e id).1.actionQueue = none → e.actionQueue = none) := by
  rw [enqueAction]
  split
  · exact ⟨rfl, fun h => h⟩
  split
  · split
    · exact ⟨rfl, fun h => h⟩
    · exact ⟨rfl, fun h => by simp at h⟩
  · exact ⟨rfl, fun h => h⟩

/-- `dequeueActions_` preserves the built flag. -/
theorem dequeueActions_built (e : Elem) :
    (dequeueActions e).1.built = e.built := by
  rw [dequeueActions]
  split <;> rfl

/-- Every lifecycle step preserves the action-queue invariant. -/
theorem queueInv_step (s1 s2 : Sys) (h : Step s1 s2) (hinv : QueueInv s1) :
    QueueInv s2 := by
  cases h with
  | build =>
    rcases build_cases s1.elem with ⟨heq, hcont⟩ | hbuilt
    · refine ⟨?_, ?_⟩
      · intro hb
        simp only [Sys.applyBuild, heq] at hb ⊢
        exact hinv.1 hb
      · intro hp
        simp only [Sys.applyBuild, heq, hcont, Bool.or_false] at hp ⊢
        exact hinv.2 hp
    · refine ⟨?_, ?_⟩
      · intro hb
        simp only [Sys.applyBuild] at hb
        rw [hbuilt] at hb
        cases hb
      · intro _
        simp only [Sys.applyBuild]
        exact hbuilt
  | enqueue id =>
    obtain ⟨hb, hq⟩ := enqueAction_preserves s1.elem id
    refine ⟨?_, ?_⟩
    · intro h0
      simp only [Sys.applyEnqueue] at h0 ⊢
      intro hn
      exact (hinv.1 (hb ▸ h0)) (hq hn)
    · intro hp
      simp only [Sys.applyEnqueue] at hp ⊢
      rw [hb]
      exact hinv.2 hp
  | drain hpend =>
    refine ⟨?_, ?_⟩
    · intro h0
      simp only [Sys.applyDrain, dequeueActions_built] at h0
      rw [hinv.2 hpend] at h0
      cases h0
    · intro hp
      simp only [Sys.applyDrain] at hp
      cases hp

/-- C9: every system state reachable from a freshly created element
satisfies the invariant that an unbuilt element's action queue is non-null
(it is nulled only at or after a successful build: immediately when empty,
or by the one-time scheduled drain), so `enqueAction` on an unbuilt element
(outside a template) never encounters a null queue and simply appends the
invocation — no action is ever dropped. -/
theorem action_queue_inv (e0 : Elem) (c : ImplClass) (s : Sys)
    (hreach : SysReachable (initSys e0 c) s) :
    (s.elem.built = false → s.elem.actionQueue ≠ none) ∧
    (∀ id, s.elem.built = false → s.elem.isInTemplate = false →
      ∃ q, s.elem.actionQueue = some q ∧
        enqueAction s.elem id =
          ({ s.elem with actionQueue := some (q ++ [id]) }, [], none)) := by
  have hinv : QueueInv s := by
    induction hreach with
    | refl =>
      exact ⟨fun _ => by simp [initSys, createdCallback],
             fun h => by simp [initSys] at h⟩
    | tail hr step ih => exact queueInv_step _ _ step ih
  refine ⟨hinv.1, ?_⟩
  intro id hb ht
  rcases hqn : s.elem.actionQueue with _ | q
  · exact absurd hqn (hinv.1 hb)
  · refine ⟨q, rfl, ?_⟩
    rw [enqueAction, if_neg (by simp [ht]), if_pos (by simp [hb]), hqn]

/-- Witness for C9 at the initial state of a concrete element: the queue is
the non-null empty list and enqueueing invocation 5 appends it. -/
theorem action_queue_inv_witness :
    (initSys baseElem okClass).elem.actionQueue ≠ none ∧
    enqueAction (initSys baseElem okClass).elem 5 =
      ({ (initSys baseElem okClass).elem with actionQueue := some [5] }, [], none) := by
  have h := action_queue_inv baseElem okClass _ Relation.ReflTransGen.refl
  refine ⟨h.1 rfl, ?_⟩
  obtain ⟨q, hq, he⟩ := h.2 5 rfl rfl
  have hq0 : (initSys baseElem okClass).elem.actionQueue = some [] := rfl
  rw [hq0] at hq
  injection hq with hq1
  subst hq1
  simpa using he

end AmpCustomElement
namespace AmpCustomElement

/-! ## C10: duplicate registration rejected; stub upgrade with isolation -/

/-- `knownElements[name] = c` binds `name` to `c`. -/
theorem lookupClass_insertClass (known : String → Option ImplClass)
    (name : String) (c : ImplClass) :
    lookupClass (insertClass known name c) name = some c := by
  simp [lookupClass, insertClass]

/-- C10: if `name` is already registered with a non-stub implementation,
`upgradeOrRegisterElement` fails the user assertion without touching the
registry or the stubbed elements; if the existing entry is the stub, the
constructor is replaced by `toClass` and every stubbed element is processed
independently by the upgrade loop (so one element's failing upgrade is
reported and does not abort the upgrades of the other elements). -/
theorem upgradeOrRegister_spec (r : Registry) (name : String)
    (toClass existing : ImplClass) (h : lookupClass r.known name = some existing) :
    (existing ≠ elementStubClass →
      upgradeOrRegisterElement r name toClass =
        (r, [], some (Err.userAssert "already registered"))) ∧
    (existing = elementStubClass →
      (upgradeOrRegisterElement r name toClass).2.2 = none ∧
      lookupClass (upgradeOrRegisterElement r name toClass).1.known name =
        some toClass ∧
      (upgradeOrRegisterElement r name toClass).1.stubbed =
        r.stubbed.map (fun el => (upgradeStubbed name toClass el).1) ∧
      (∀ el ∈ r.stubbed, ∀ err, lowerStr el.tagName = name →
        (upgrade el toClass).2.2 = some err →
        Event.reportError err ∈ (upgradeOrRegisterElement r name toClass).2.1)) := by
  constructor
  · intro hne
    simp only [upgradeOrRegisterElement, h]
    rw [if_pos hne]
  · intro he
    subst he
    have hred : upgradeOrRegisterElement r name toClass =
        ({ known := insertClass r.known name toClass,
           stubbed := r.stubbed.map (fun el => (upgradeStubbed name toClass el).1) },
         r.stubbed.flatMap (fun el => (upgradeStubbed name toClass el).2),
         none) := by
      simp only [upgradeOrRegisterElement, h]
      rw [if_neg (by simp)]
    refine ⟨by rw [hred], ?_, by rw [hred], ?_⟩
    · rw [hred]
      exact lookupClass_insertClass r.known name toClass
    · intro el hel err htag herr
      rw [hred]
      have hmem : Event.reportError err ∈ (upgradeStubbed name toClass el).2 := by
        have hu : upgrade el toClass =
            ((upgrade el toClass).1, (upgrade el toClass).2.1, some err) := by
          rw [← herr]
        rw [upgradeStubbed, if_pos htag, hu]
        simp
      exact List.mem_flatMap.mpr ⟨el, hel, hmem⟩

/-- A stubbed element of tag amp-x whose resolved layout the upgrading
class does not support. -/
def stubbedFailElem : Elem :=
  { baseElem with
    tagName := "amp-x",
    layout := Layout.FIXED,
    impl := elementStubClass.new }

/-- A stubbed element of tag amp-x that upgrades cleanly (layout
NODISPLAY). -/
def stubbedOkElem : Elem :=
  { baseElem with tagName := "amp-x", impl := elementStubClass.new }

/-- The class registered for amp-x: supports only CONTAINER. -/
def regClass : ImplClass :=
  { okClass with supportedLayouts := [Layout.CONTAINER] }

/-- Registry with amp-x stubbed and two stubbed elements. -/
def sampleRegistry : Registry :=
  { known := fun n => if n = "amp-x" then some elementStubClass else none,
    stubbed := [stubbedFailElem, stubbedOkElem] }

/-- Registry where amp-x is already bound to a real implementation. -/
def dupRegistry : Registry :=
  { known := fun n => if n = "amp-x" then some regClass else none, stubbed := [] }

/-- Witness for C10: the stub registry is upgraded (constructor replaced,
the failing element's error reported without stopping the loop), and the
duplicate registry is rejected unchanged. -/
theorem upgradeOrRegister_spec_witness :
    (upgradeOrRegisterElement sampleRegistry "amp-x" regClass).2.2 = none ∧
    lookupClass (upgradeOrRegisterElement sampleRegistry "amp-x" regClass).1.known
      "amp-x" = some regClass ∧
    Event.reportError (Err.layoutNotSupported Layout.FIXED) ∈
      (upgradeOrRegisterElement sampleRegistry "amp-x" regClass).2.1 ∧
    upgradeOrRegisterElement dupRegistry "amp-x" regClass =
      (dupRegistry, [], some (Err.userAssert "already registered")) := by
  have h1 := (upgradeOrRegister_spec sampleRegistry "amp-x" regClass
    elementStubClass (by decide)).2 rfl
  have h2 := (upgradeOrRegister_spec dupRegistry "amp-x" regClass
    regClass (by decide)).1 (by decide)
  exact ⟨h1.1, h1.2.1,
    h1.2.2.2 stubbedFailElem (by decide) (Err.layoutNotSupported Layout.FIXED)
      (by decide) (by decide), h2⟩

end AmpCustomElement
